import Mathlib

/-!
Verification development for the deep-reach recruiting pipeline.

The definitions below are shallow embeddings of the TypeScript sources:
the Hunter.io people_lookup tool (src/tools/hunter.ts), the tool factory
(src/tools/index.ts), the per-company worker flow (directed by
COMPANY_FLOW_PROMPT in src/agents/subagents.ts), the Gmail send loop
(services/gmail.ts), the draft send phase of the CLI (sendPendingQueue in
src/cli/index.ts), the human review prompt and the pipeline entry point
(src/agents/orchestrator.ts).  JavaScript string truthiness (undefined and
the empty string are falsy) is modelled explicitly.
-/

namespace DeepReach

/-- JavaScript truthiness of an optional string: undefined and "" are falsy. -/
def jsTruthy : Option String → Bool
  | none => false
  | some s => s ≠ ""

/-- JavaScript `a || b` where `a` is an optional string and `b` a string default. -/
def jsOrD (a : Option String) (b : String) : String :=
  match a with
  | some s => if s = "" then b else s
  | none => b

/-- JavaScript `a || b` on two optional strings. -/
def jsOr (a b : Option String) : Option String :=
  if jsTruthy a then a else b

/-- JavaScript template interpolation of a possibly-undefined string. -/
def jsInterp (a : Option String) : String :=
  a.getD "undefined"

-- ============================================================================
-- Hunter.io people_lookup tool (src/tools/hunter.ts)
-- ============================================================================

/-- One entry of the `emails` array of a Hunter.io domain-search response. -/
structure HunterEmail where
  first_name : Option String
  last_name : Option String
  position : Option String
  value : String
deriving DecidableEq

/-- The `data` object of a Hunter.io domain-search response body. -/
structure HunterData where
  emails : Option (List HunterEmail)
  organization : Option String
  domain : Option String
deriving DecidableEq

/-- Abstraction of the HTTP response obtained by hunterGet. -/
structure HunterResponse where
  ok : Bool
  status : Nat
  errorText : String
  data : Option HunterData
deriving DecidableEq

/-- The clean contact format produced by the tool: name, title, email. -/
structure Person where
  name : String
  title : String
  email : String
deriving DecidableEq

/-- The JSON result shape returned by people_lookup.  The success shape has
success, company, domain, people, total; the failure shape additionally
carries error and message and has an empty people array. -/
structure LookupResult where
  success : Bool
  error : Option String
  message : Option String
  company : Option String
  domain : Option String
  people : List Person
  total : Nat
deriving DecidableEq

/-- The state closed over by the tool returned from
createHunterDomainSearchTool: the clamped contact limit. -/
structure HunterTool where
  limit : Int
deriving DecidableEq

/-- createHunterDomainSearchTool: clamps the configured contacts limit to
[1, 100] (Hunter.io supports up to 100 results per request).  The source
has a default parameter value of 10. -/
def createHunterDomainSearchTool (contactsLimit : Option Int) : HunterTool :=
  { limit := min (max (contactsLimit.getD 10) 1) 100 }

/-- The configuration object accepted by buildTools (src/tools/index.ts). -/
structure ToolsConfig where
  contactsPerCompany : Option Int
deriving DecidableEq

/-- buildTools: destructures contactsPerCompany with default 10 and passes it
to createHunterDomainSearchTool.  Only the hunter tool is modelled here. -/
def buildTools (config : ToolsConfig) : HunterTool :=
  createHunterDomainSearchTool (some (config.contactsPerCompany.getD 10))

/-- The query parameters the tool sends to the Hunter.io domain-search
endpoint: domain, company, the clamped limit, and department "it". -/
structure HunterRequestParams where
  domain : Option String
  company : Option String
  limit : Int
  department : String
deriving DecidableEq

/-- The request parameters built inside the tool handler. -/
def hunterRequestParams (tool : HunterTool) (domain company : Option String) :
    HunterRequestParams :=
  { domain := domain, company := company, limit := tool.limit, department := "it" }

/-- Transformation of one Hunter email entry into the clean contact format. -/
def toPerson (email : HunterEmail) : Person :=
  { name := ((email.first_name.getD "") ++ " " ++ (email.last_name.getD "")).trim
    title := jsOrD email.position "Unknown"
    email := email.value }

/-- The people_lookup tool handler.  Throws (Except.error) when neither domain
nor company is truthy and when the HTTP response is not ok; otherwise returns
the success shape, or the explicit NO_CONTACTS_FOUND failure shape when the
transformed people list is empty.  The possessive in the message text of the
source is written without an apostrophe here. -/
def peopleLookup (tool : HunterTool) (domain company : Option String)
    (resp : HunterResponse) : Except String LookupResult :=
  let limit := tool.limit
  if ¬ jsTruthy domain ∧ ¬ jsTruthy company then
    Except.error "people_lookup requires either domain or company"
  else if ¬ resp.ok then
    Except.error ("Hunter domain search failed (" ++ toString resp.status ++ "): "
      ++ resp.errorText)
  else
    let emails := (resp.data.bind (fun d => d.emails)).getD []
    let organization := resp.data.bind (fun d => d.organization)
    let people := (emails.take limit.toNat).map toPerson
    if people.length = 0 then
      Except.ok
        { success := false
          error := some "NO_CONTACTS_FOUND"
          message := some ("Hunter.io returned 0 contacts for "
            ++ jsInterp (jsOr organization (jsOr domain company))
            ++ ". This company has no public email data available in Hunters "
            ++ "database. You MUST skip this company, save a failure report, "
            ++ "and move on. DO NOT make up or invent any contact information.")
          company := some (jsOrD (jsOr organization company) "Unknown")
          domain := some (jsOrD (jsOr domain (resp.data.bind (fun d => d.domain))) "Unknown")
          people := []
          total := 0 }
    else
      Except.ok
        { success := true
          error := none
          message := none
          company := organization
          domain := jsOr domain (resp.data.bind (fun d => d.domain))
          people := people
          total := people.length }

-- ============================================================================
-- Company and draft records (companies.json / drafts.json entries)
-- ============================================================================

/-- One entry of companies.json, as written in Stage 1 and updated by the
company-flow worker. -/
structure CompanyRec where
  name : String
  domain : String
  description : Option String
  why_good_fit : Option String
  selected : Bool
  status : String
  contactsFound : Option Nat
  draftsGenerated : Option Nat
  processedAt : Option String
  failureReason : Option String
deriving DecidableEq

/-- The contact object embedded in a draft entry. -/
structure ContactInfo where
  name : Option String
  title : Option String
  email : Option String
deriving DecidableEq

/-- One entry of drafts.json.  Fields the send phase reads or writes. -/
structure DraftRec where
  id : String
  contact : Option ContactInfo
  subject : Option String
  body : Option String
  status : String
  sentAt : Option String
  messageId : Option String
  error : Option String
deriving DecidableEq

-- ============================================================================
-- Company-flow worker (COMPANY_FLOW_PROMPT, src/agents/subagents.ts)
-- ============================================================================

/-- The effect of one company-flow worker on its company entry and on the
shared collections. -/
structure CompanyFlowResult where
  company : CompanyRec
  contactsSaved : List Person
  drafts : List DraftRec
deriving DecidableEq

/-- The per-company worker flow as directed by COMPANY_FLOW_PROMPT in
src/agents/subagents.ts: when people_lookup reports success=false (zero
contacts) the worker sets status FAILED with failureReason "No contacts
found", saves no contact and produces no draft, and stops; when contacts are
found it saves the first 10 people, produces one draft per saved contact,
and marks the company SUCCESS with the aggregated counts and a timestamp. -/
def companyFlow (lookup : LookupResult) (draftFor : Person → DraftRec)
    (processedAt : String) (company : CompanyRec) : CompanyFlowResult :=
  if lookup.success = false then
    { company := { company with
        status := "FAILED",
        failureReason := some "No contacts found" }
      contactsSaved := []
      drafts := [] }
  else
    let contacts := lookup.people.take 10
    let drafts := contacts.map draftFor
    { company := { company with
        status := "SUCCESS",
        contactsFound := some contacts.length,
        draftsGenerated := some drafts.length,
        processedAt := some processedAt }
      contactsSaved := contacts
      drafts := drafts }

-- ============================================================================
-- Gmail SMTP client (services/gmail.ts)
-- ============================================================================

/-- The message shape handed to the Gmail client (attachments omitted: they
do not affect control flow). -/
structure EmailMessage where
  toAddress : String
  toName : Option String
  subject : String
  textBody : String
  customId : String
deriving DecidableEq

/-- Per-message result of a send attempt. -/
structure EmailResult where
  success : Bool
  messageId : Option String
  email : String
  error : Option String
deriving DecidableEq

/-- Gmail credentials read from the environment. -/
structure GmailConfig where
  user : String
  pass : String
deriving DecidableEq

/-- getGmailConfig: throws when GMAIL_USER or GMAIL_APP_PASSWORD is missing
(or empty, by JavaScript truthiness). -/
def getGmailConfig (user pass : Option String) : Except String GmailConfig :=
  if ¬ jsTruthy user ∨ ¬ jsTruthy pass then
    Except.error "Missing Gmail credentials: GMAIL_USER and GMAIL_APP_PASSWORD required"
  else
    Except.ok { user := user.getD "", pass := pass.getD "" }

/-- One iteration of the send loop: the try/catch around transporter.sendMail.
The abstract transport either yields a message id or an error message. -/
def sendOne (transport : EmailMessage → Except String String)
    (msg : EmailMessage) : EmailResult :=
  match transport msg with
  | Except.ok messageId =>
    { success := true, messageId := some messageId, email := msg.toAddress, error := none }
  | Except.error e =>
    { success := false, messageId := none, email := msg.toAddress, error := some e }

/-- sendEmails: returns [] for an empty input before reading the
configuration; otherwise requires credentials and then sends the messages
one at a time in input order, accumulating one result per message and
continuing past individual failures. -/
def sendEmails (user pass : Option String)
    (transport : EmailMessage → Except String String)
    (messages : List EmailMessage) : Except String (List EmailResult) :=
  if messages.length = 0 then Except.ok []
  else
    match getGmailConfig user pass with
    | Except.error e => Except.error e
    | Except.ok _ =>
      Except.ok (messages.foldl (fun results msg => results ++ [sendOne transport msg]) [])

-- ============================================================================
-- Draft send phase (sendPendingQueue, src/cli/index.ts)
-- ============================================================================

/-- The validity check applied per pending draft: contact email, subject and
body must all be truthy, else the draft is skipped. -/
def validDraft (d : DraftRec) : Bool :=
  jsTruthy (d.contact.bind (fun c => c.email)) && jsTruthy d.subject && jsTruthy d.body

/-- Construction of the outgoing message from a draft entry. -/
def toMessage (runTag : String) (d : DraftRec) : EmailMessage :=
  { toAddress := (d.contact.bind (fun c => c.email)).getD ""
    toName := d.contact.bind (fun c => c.name)
    subject := d.subject.getD ""
    textBody := d.body.getD ""
    customId := runTag ++ "_" ++ d.id }

/-- JavaScript Array.prototype.findIndex: first matching index, or -1. -/
def findIndex (p : α → Bool) : List α → Int
  | [] => -1
  | x :: xs =>
    if p x then 0
    else
      let r := findIndex p xs
      if r = -1 then -1 else r + 1

/-- The per-entry update applied after the sends: success gives status sent
with sentAt and messageId, failure gives status failed with the error. -/
def applyResult (timestamp : String) (d : DraftRec) (r : EmailResult) : DraftRec :=
  if r.success then
    { d with status := "sent", sentAt := some timestamp, messageId := r.messageId }
  else
    { d with status := "failed", error := some (jsOrD r.error "Unknown error") }

/-- The body of the drafts.map callback in sendPendingQueue: look the entry
up by id among the pending drafts and index the results array with the
position found there.  An out-of-range access (results[i] undefined, whose
.success the source then reads) is a thrown TypeError, modelled as none. -/
def updateOne (pendingDrafts : List DraftRec) (results : List EmailResult)
    (timestamp : String) (d : DraftRec) : Option DraftRec :=
  let pendingIndex := findIndex (fun pd => pd.id = d.id) pendingDrafts
  if pendingIndex = -1 then some d
  else
    match results[pendingIndex.toNat]? with
    | none => none
    | some r => some (applyResult timestamp d r)

/-- Option-valued traversal of a list: none as soon as one element fails,
modelling an exception thrown inside Array.prototype.map. -/
def mapOption (f : α → Option β) : List α → Option (List β)
  | [] => some []
  | x :: xs =>
    match f x, mapOption f xs with
    | some y, some ys => some (y :: ys)
    | _, _ => none

/-- Observable outcome of one invocation of sendPendingQueue.  In every case
the first payload is the drafts.json contents after the invocation; skipped
means an early return before any send, raised means an exception was thrown
(the file keeps its previous contents). -/
inductive PhaseOutcome
  | completed (fileContents : List DraftRec) (results : List EmailResult)
  | skipped (fileContents : List DraftRec)
  | raised (fileContents : List DraftRec) (results : List EmailResult)
deriving DecidableEq

/-- The drafts.json contents after the phase. -/
def PhaseOutcome.fileContents : PhaseOutcome → List DraftRec
  | .completed f _ => f
  | .skipped f => f
  | .raised f _ => f

/-- The results of the send attempts performed by the phase. -/
def PhaseOutcome.results : PhaseOutcome → List EmailResult
  | .completed _ rs => rs
  | .skipped _ => []
  | .raised _ rs => rs

/-- sendPendingQueue (UI interaction omitted): select the pending drafts
(status draft), return early when none; build messages from the valid ones,
return early when none; send them via sendEmails; then rewrite drafts.json
by mapping every entry through the result lookup. -/
def sendPendingQueue (user pass : Option String)
    (transport : EmailMessage → Except String String)
    (timestamp runTag : String) (drafts : List DraftRec) : PhaseOutcome :=
  let pendingDrafts := drafts.filter (fun d => d.status = "draft")
  if pendingDrafts.length = 0 then .skipped drafts
  else
    let messages := (pendingDrafts.filter validDraft).map (toMessage runTag)
    if messages.length = 0 then .skipped drafts
    else
      match sendEmails user pass transport messages with
      | Except.error _ => .raised drafts []
      | Except.ok results =>
        match mapOption (updateOne pendingDrafts results timestamp) drafts with
        | none => .raised drafts results
        | some updated => .completed updated results

-- ============================================================================
-- Human review prompt (promptUserForReview, src/agents/orchestrator.ts)
-- ============================================================================

/-- Outcome of one clack prompt: the user either cancels/aborts or answers. -/
inductive ClackAnswer (α : Type)
  | cancelled
  | value (a : α)
deriving DecidableEq

/-- The two options of the approve/revise selection. -/
inductive ReviewChoice
  | approve
  | revise
deriving DecidableEq

/-- The transient review decision returned to the stream consumer. -/
structure ReviewDecision where
  approved : Bool
  feedback : Option String
deriving DecidableEq

/-- promptUserForReview: cancel at the selection is treated as approve;
choosing revise then cancelling the feedback text, or submitting empty
feedback, is also treated as approve; otherwise the feedback is returned
with approved=false. -/
def promptUserForReview (decision : ClackAnswer ReviewChoice)
    (feedbackAnswer : ClackAnswer String) : ReviewDecision :=
  match decision with
  | .cancelled => { approved := true, feedback := none }
  | .value .approve => { approved := true, feedback := none }
  | .value .revise =>
    match feedbackAnswer with
    | .cancelled => { approved := true, feedback := none }
    | .value s =>
      if s = "" then { approved := true, feedback := none }
      else { approved := false, feedback := some s }

/-- The HITL payload resumed into the agent stream: one approve decision, or
one reject decision carrying the feedback message. -/
inductive HitlDecision
  | approve
  | reject (message : Option String)
deriving DecidableEq

/-- Construction of the resume payload from the review decision. -/
def hitlResponse (d : ReviewDecision) : HitlDecision :=
  if d.approved then .approve else .reject d.feedback

/-- One iteration of the HITL review loop in consumeStream: prompt the user
on the presented companies; on approval remember exactly the presented list
as lastApprovedCompanies and resume with an approve decision. -/
def reviewStep {β : Type} (companies : List β) (decision : ClackAnswer ReviewChoice)
    (feedbackAnswer : ClackAnswer String) : HitlDecision × Option (List β) :=
  let d := promptUserForReview decision feedbackAnswer
  (hitlResponse d, if d.approved then some companies else none)

-- ============================================================================
-- Pipeline entry point (runPipeline, src/agents/orchestrator.ts)
-- ============================================================================

/-- The stats record of a PipelineResult. -/
structure PipelineStats where
  companiesCandidates : Nat
  companiesSelected : Nat
  companiesResearched : Nat
  contactsFound : Nat
  contactsVerified : Nat
  draftsGenerated : Nat
deriving DecidableEq

/-- The all-zero statistics record. -/
def zeroStats : PipelineStats :=
  { companiesCandidates := 0, companiesSelected := 0, companiesResearched := 0,
    contactsFound := 0, contactsVerified := 0, draftsGenerated := 0 }

/-- The result returned by runPipeline. -/
structure PipelineResultRec where
  success : Bool
  runId : String
  stats : PipelineStats
  error : Option String
deriving DecidableEq

/-- runPipeline, abstracted over the body of its try block: the execution
transforms the artifact state (of arbitrary type σ) and either produces the
gathered statistics or throws with a message.  The catch branch returns
success=false with the captured message and all-zero statistics and performs
no operation on the artifact state. -/
def runPipeline {σ : Type} (runId : String)
    (exec : σ → σ × Except String PipelineStats) (fs : σ) : PipelineResultRec × σ :=
  let r := exec fs
  match r.2 with
  | Except.ok stats =>
    ({ success := true, runId := runId, stats := stats, error := none }, r.1)
  | Except.error msg =>
    ({ success := false, runId := runId, stats := zeroStats, error := some msg }, r.1)

-- ============================================================================
-- Statistics gathering (gatherPipelineStats, src/agents/orchestrator.ts)
-- ============================================================================

/-- What reading and JSON-parsing one artifact file can yield: the file is
absent, reading or parsing throws, the parsed value is not an array, or it
is an array of entries. -/
inductive ReadResult (α : Type)
  | absent
  | unreadable
  | notArray
  | arr (entries : List α)
deriving DecidableEq

/-- The entries of a read artifact ([] unless it parsed to an array). -/
def ReadResult.entries {α : Type} : ReadResult α → List α
  | .arr xs => xs
  | _ => []

/-- gatherPipelineStats: starts from all zeros; reads companies.json and, if
it is an array, counts its length and its SUCCESS entries; then reads
drafts.json and, if it is an array, stores its length into draftsGenerated,
contactsFound and contactsVerified.  The single try/catch covers both reads:
a throwing companies.json aborts before drafts.json is consulted, returning
the zeros accumulated so far; a throwing drafts.json returns the company
figures with zero draft figures. -/
def gatherPipelineStats (companies : ReadResult CompanyRec)
    (drafts : ReadResult DraftRec) : PipelineStats :=
  match companies with
  | .unreadable => zeroStats
  | c =>
    let s1 := match c with
      | .arr xs =>
        { zeroStats with
          companiesSelected := xs.length,
          companiesResearched := (xs.filter (fun x => x.status = "SUCCESS")).length }
      | _ => zeroStats
    match drafts with
    | .unreadable => s1
    | .arr ys =>
      { s1 with
        draftsGenerated := ys.length,
        contactsFound := ys.length,
        contactsVerified := ys.length }
    | _ => s1

-- ============================================================================
-- WorkspaceStore (modelled from the spec)
-- ============================================================================

/-- Modelled from the spec: the WorkspaceStore of section 4.5 is not
implemented under src/ (collection files are accessed through the deepagents
FilesystemBackend created in createRecruitingOrchestrator); its mutate
operation is modelled here from the specification text.  A store maps each
collection key to the current collection contents. -/
def Store (α : Type) : Type := String → List α

/-- The empty store: every collection is empty/absent. -/
def Store.empty (α : Type) : Store α := fun _ => []

/-- Modelled from the spec: mutate(collectionKey, updateFn) reads the current
collection (or empty if absent), applies updateFn, and writes the full
collection back; mutual exclusion per collection key means concurrent
callers are applied in some serial order, which the theorems quantify
over. -/
def Store.mutate {α : Type} (st : Store α) (collectionKey : String)
    (updateFn : List α → List α) : Store α :=
  fun k => if k = collectionKey then updateFn (st k) else st k

/-- One company worker completion: append one record to the collection at
key k through Store.mutate. -/
def appendRecord {α : Type} (k : String) (st : Store α) (r : α) : Store α :=
  st.mutate k (fun xs => xs ++ [r])

/-- A batch of worker completions arriving in the given serial order. -/
def runWorkers {α : Type} (k : String) (st : Store α) (completions : List α) : Store α :=
  completions.foldl (appendRecord k) st

-- ============================================================================
-- Concrete sample inputs used by witnesses and counterexamples
-- ============================================================================

/-- A backend response carrying zero contact entries for y.com. -/
def hunterZeroResp : HunterResponse :=
  { ok := true
    status := 200
    errorText := ""
    data := some { emails := some [], organization := some "Y", domain := some "y.com" } }

/-- Four contact entries as returned by the backend. -/
def hunterFourEmails : List HunterEmail :=
  [{ first_name := some "A", last_name := some "A", position := some "E", value := "a@y.com" },
   { first_name := some "B", last_name := some "B", position := some "E", value := "b@y.com" },
   { first_name := some "C", last_name := some "C", position := some "E", value := "c@y.com" },
   { first_name := some "D", last_name := some "D", position := some "E", value := "d@y.com" }]

/-- A backend response carrying four contact entries for y.com. -/
def hunterFourResp : HunterResponse :=
  { ok := true
    status := 200
    errorText := ""
    data := some { emails := some hunterFourEmails, organization := some "Y",
                   domain := some "y.com" } }

/-- A minimal draft entry (used as the output stub of a personalization
worker and as a one-entry drafts.json). -/
def draftStub : DraftRec :=
  { id := "d"
    contact := none
    subject := none
    body := none
    status := "draft"
    sentAt := none
    messageId := none
    error := none }

/-- A company entry still PENDING, as discovered in Stage 1. -/
def pendingCompanyY : CompanyRec :=
  { name := "Y"
    domain := "y.com"
    description := none
    why_good_fit := none
    selected := true
    status := "PENDING"
    contactsFound := none
    draftsGenerated := none
    processedAt := none
    failureReason := none }

/-- A valid pending draft entry with all send fields present. -/
def draftPendingA : DraftRec :=
  { id := "a"
    contact := some { name := some "Nina", title := some "Engineer", email := some "n@y.com" }
    subject := some "S"
    body := some "B"
    status := "draft"
    sentAt := none
    messageId := none
    error := none }

/-- The entry draftPendingA after its send attempt failed with SMTP 550. -/
def draftFailedA : DraftRec :=
  { draftPendingA with status := "failed", error := some "SMTP 550" }

/-- An already-sent entry whose id collides with a pending draft. -/
def dupSentX : DraftRec :=
  { id := "x"
    contact := some { name := some "Ada", title := some "Eng", email := some "a@x.com" }
    subject := some "S"
    body := some "B"
    status := "sent"
    sentAt := some "T0"
    messageId := some "m0"
    error := none }

/-- A valid pending draft sharing its id with dupSentX. -/
def dupDraftX : DraftRec :=
  { id := "x"
    contact := some { name := some "Bob", title := some "Eng", email := some "b@x.com" }
    subject := some "S2"
    body := some "B2"
    status := "draft"
    sentAt := none
    messageId := none
    error := none }

/-- Two concrete outgoing messages. -/
def msgA : EmailMessage :=
  { toAddress := "a@x.com", toName := some "Ada", subject := "S", textBody := "B",
    customId := "run0001_a" }

/-- A second concrete outgoing message. -/
def msgB : EmailMessage :=
  { toAddress := "b@x.com", toName := some "Bob", subject := "S2", textBody := "B2",
    customId := "run0001_b" }

-- ============================================================================
-- Helper lemmas
-- ============================================================================

/-- Folding appends through mutate accumulates the records at the key. -/
theorem runWorkers_apply {α : Type} (k : String) (l : List α) (st : Store α) :
    runWorkers k st l k = st k ++ l := by
  induction l generalizing st with
  | nil => simp [runWorkers]
  | cons r rest ih =>
    show runWorkers k (appendRecord k st r) rest k = st k ++ (r :: rest)
    rw [ih]
    simp [appendRecord, Store.mutate]

/-- Mutating one collection key leaves every other collection untouched. -/
theorem runWorkers_apply_ne {α : Type} (k k' : String) (h : k' ≠ k) (l : List α)
    (st : Store α) : runWorkers k st l k' = st k' := by
  induction l generalizing st with
  | nil => rfl
  | cons r rest ih =>
    show runWorkers k (appendRecord k st r) rest k' = st k'
    rw [ih]
    simp [appendRecord, Store.mutate, h]

/-- Folding result-appends equals mapping, for the send loop accumulator. -/
theorem foldl_append_eq_map {α β : Type} (f : α → β) (l : List α) (acc : List β) :
    l.foldl (fun rs x => rs ++ [f x]) acc = acc ++ l.map f := by
  induction l generalizing acc with
  | nil => simp
  | cons x xs ih => simp [List.foldl_cons, ih]

/-- A successful sendEmails call returns exactly the per-message results of
the send loop, in input order. -/
theorem sendEmails_ok_eq (user pass : Option String)
    (transport : EmailMessage → Except String String)
    (messages : List EmailMessage) (rs : List EmailResult)
    (h : sendEmails user pass transport messages = Except.ok rs) :
    rs = messages.map (sendOne transport) := by
  unfold sendEmails at h
  by_cases h0 : messages.length = 0
  · rw [if_pos h0] at h
    have hnil := List.length_eq_zero.mp h0
    subst hnil
    simpa using ((Except.ok.injEq _ _).mp h).symm
  · rw [if_neg h0] at h
    cases hc : getGmailConfig user pass with
    | error e =>
      rw [hc] at h
      exact absurd h (by simp)
    | ok c =>
      rw [hc] at h
      have := (Except.ok.injEq _ _).mp h
      rw [← this, foldl_append_eq_map]
      simp

/-- When a configuration is present, sendEmails never throws. -/
theorem sendEmails_ok_of_config (user pass : Option String) (cfg : GmailConfig)
    (transport : EmailMessage → Except String String) (messages : List EmailMessage)
    (hcfg : getGmailConfig user pass = Except.ok cfg) :
    sendEmails user pass transport messages
      = Except.ok (messages.map (sendOne transport)) := by
  unfold sendEmails
  by_cases h0 : messages.length = 0
  · rw [if_pos h0]
    have hnil := List.length_eq_zero.mp h0
    subst hnil
    simp
  · rw [if_neg h0, hcfg, foldl_append_eq_map]
    simp

/-- findIndex returns -1 when no element matches. -/
theorem findIndex_eq_neg_one {α : Type} (q : α → Bool) (l : List α)
    (h : ∀ x ∈ l, q x = false) : findIndex q l = -1 := by
  induction l with
  | nil => rfl
  | cons x xs ih =>
    have hx := h x (List.mem_cons_self x xs)
    have hxs := ih (fun y hy => h y (List.mem_cons_of_mem x hy))
    simp [findIndex, hx, hxs]

/-- When the keys of a list are pairwise distinct, findIndex on the key of a
member finds the member itself: the index is nonnegative and indexes back to
that member. -/
theorem findIndex_key_spec {α : Type} (key : α → String) (d : α) (l : List α)
    (hnd : (l.map key).Nodup) (hmem : d ∈ l) :
    ∃ n : Nat, findIndex (fun x => key x = key d) l = (n : Int) ∧ l[n]? = some d := by
  induction l with
  | nil => cases hmem
  | cons p rest ih =>
    have hnd2 : (rest.map key).Nodup := (List.nodup_cons.mp hnd).2
    by_cases hp : key p = key d
    · have hd : d = p := by
        rcases List.mem_cons.mp hmem with h | h
        · exact h
        · exfalso
          have : key d ∈ rest.map key := List.mem_map_of_mem key h
          exact (List.nodup_cons.mp hnd).1 (hp ▸ this)
      exact ⟨0, by simp [findIndex, hp], by simp [hd]⟩
    · have hdr : d ∈ rest := by
        rcases List.mem_cons.mp hmem with h | h
        · exact absurd (h ▸ rfl) hp
        · exact h
      obtain ⟨n, hfi, hget⟩ := ih hnd2 hdr
      refine ⟨n + 1, ?_, by simpa using hget⟩
      have hne : ((n : Int) = -1) = False := by
        simp only [eq_iff_iff, iff_false]
        omega
      simp [findIndex, hp, hfi, hne]

/-- An entry whose id matches no pending draft is returned unchanged. -/
theorem updateOne_not_pending (pending : List DraftRec) (results : List EmailResult)
    (ts : String) (d : DraftRec) (h : ∀ p ∈ pending, p.id ≠ d.id) :
    updateOne pending results ts d = some d := by
  have hfi : findIndex (fun pd => pd.id = d.id) pending = -1 :=
    findIndex_eq_neg_one _ _ (fun x hx => by simp [h x hx])
  simp [updateOne, hfi]

/-- A pending draft, under distinct pending ids and results aligned with the
pending list, is updated with exactly its own result. -/
theorem updateOne_pending (pending : List DraftRec) (g : DraftRec → EmailResult)
    (ts : String) (d : DraftRec) (hnd : (pending.map (fun p => p.id)).Nodup)
    (hmem : d ∈ pending) :
    updateOne pending (pending.map g) ts d = some (applyResult ts d (g d)) := by
  obtain ⟨n, hfi, hget⟩ := findIndex_key_spec (fun p => p.id) d pending hnd hmem
  have hne : ¬ ((n : Int) = -1) := by omega
  have hmap : (pending.map g)[n]? = some (g d) := by
    rw [List.getElem?_map, hget]
    rfl
  simp [updateOne, hfi, hne, hmap]

/-- Option-valued traversal succeeds pointwise iff every element does. -/
theorem mapOption_eq_map {α β : Type} (f : α → Option β) (h : α → β) (l : List α)
    (hl : ∀ x ∈ l, f x = some (h x)) :
    mapOption f l = some (l.map h) := by
  induction l with
  | nil => rfl
  | cons x xs ih =>
    have hx := hl x (List.mem_cons_self x xs)
    have hxs := ih (fun y hy => hl y (List.mem_cons_of_mem x hy))
    simp [mapOption, hx, hxs]

-- ============================================================================
-- Claim theorems
-- ============================================================================

/-- Claim C2: all mutation of the shared collections goes through
mutate(collectionKey, updateFn) serialized per collection key, so N
concurrently completing company workers each appending one record to
companies.json yield exactly N records, none overwritten, independent of the
completion order (quantified as an arbitrary permutation), and no other
collection is touched. -/
theorem C2_mutate_serialized_appends {α : Type} (k : String) (recs order : List α)
    (h : order.Perm recs) :
    ((runWorkers k (Store.empty α) order) k).length = recs.length ∧
    ((runWorkers k (Store.empty α) order) k).Perm recs ∧
    ∀ k', k' ≠ k → (runWorkers k (Store.empty α) order) k' = [] := by
  refine ⟨?_, ?_, ?_⟩
  · rw [runWorkers_apply]
    simpa [Store.empty] using h.length_eq
  · rw [runWorkers_apply]
    simpa [Store.empty] using h
  · intro k' hk
    rw [runWorkers_apply_ne k k' hk]
    rfl

/-- Witness for C2 at a concrete permutation of three records. -/
theorem C2_mutate_serialized_appends_witness :
    ((runWorkers "companies" (Store.empty Nat) [2, 1, 3]) "companies").length
      = ([1, 2, 3] : List Nat).length ∧
    ((runWorkers "companies" (Store.empty Nat) [2, 1, 3]) "companies").Perm [1, 2, 3] ∧
    ∀ k', k' ≠ "companies" → (runWorkers "companies" (Store.empty Nat) [2, 1, 3]) k' = [] :=
  C2_mutate_serialized_appends "companies" [1, 2, 3] [2, 1, 3] (by decide)

/-- Claim C5: aborting the review prompt without an explicit choice — at the
approve/revise selection or at the feedback text input — resolves the review
decision to approved with no feedback, and the resume step proceeds with
exactly the presented company list. -/
theorem C5_cancel_is_implicit_approval (fb : ClackAnswer String)
    (companies : List CompanyRec) :
    promptUserForReview ClackAnswer.cancelled fb
      = { approved := true, feedback := none } ∧
    promptUserForReview (ClackAnswer.value ReviewChoice.revise) ClackAnswer.cancelled
      = { approved := true, feedback := none } ∧
    reviewStep companies ClackAnswer.cancelled fb
      = (HitlDecision.approve, some companies) ∧
    reviewStep companies (ClackAnswer.value ReviewChoice.revise) ClackAnswer.cancelled
      = (HitlDecision.approve, some companies) := by
  refine ⟨rfl, rfl, ?_, ?_⟩ <;> simp [reviewStep, promptUserForReview, hitlResponse]

/-- Claim C6: every error thrown during pipeline execution is caught;
runPipeline reports success=false with the captured message and all-zero
statistics, and the artifact state is returned exactly as it was at the
failure point — the handler deletes and modifies nothing. -/
theorem C6_error_reported_artifacts_intact {σ : Type} (runId : String)
    (exec : σ → σ × Except String PipelineStats) (fs fs2 : σ) (msg : String)
    (h : exec fs = (fs2, Except.error msg)) :
    runPipeline runId exec fs =
      ({ success := false, runId := runId, stats := zeroStats, error := some msg }, fs2) := by
  simp [runPipeline, h]

/-- Witness for C6 at a concrete failing execution over a Nat state. -/
theorem C6_error_reported_artifacts_intact_witness :
    runPipeline "run0001" (fun n : Nat => (n + 1, Except.error "boom")) 0 =
      ({ success := false, runId := "run0001", stats := zeroStats, error := some "boom" }, 1) :=
  C6_error_reported_artifacts_intact "run0001" (fun n : Nat => (n + 1, Except.error "boom"))
    0 1 "boom" rfl

/-- Counterexample to claim C7 as stated: invoked with neither a truthy
domain nor a truthy company, people_lookup raises instead of returning one
of the two result shapes. -/
theorem C7_counterexample :
    peopleLookup (createHunterDomainSearchTool (some 10)) none none hunterZeroResp
      = Except.error "people_lookup requires either domain or company" := rfl

/-- Claim C7 (amended): whenever people_lookup is invoked with a truthy
domain or company and the backend HTTP response is ok, it returns (without
raising) one of exactly two result shapes — the success shape, or the
failure shape with error NO_CONTACTS_FOUND and an empty people array — and
when the backend reports zero contacts the result is the failure shape. -/
theorem C7_lookup_result_shapes (tool : HunterTool) (domain company : Option String)
    (resp : HunterResponse)
    (hdc : jsTruthy domain = true ∨ jsTruthy company = true)
    (hok : resp.ok = true) :
    ∃ r, peopleLookup tool domain company resp = Except.ok r ∧
      ((r.success = true ∧ r.error = none ∧ r.message = none ∧ r.people ≠ [] ∧
        r.total = r.people.length) ∨
       (r.success = false ∧ r.error = some "NO_CONTACTS_FOUND" ∧ r.people = [] ∧
        r.total = 0)) ∧
      ((resp.data.bind (fun d => d.emails)).getD [] = [] →
        r.success = false ∧ r.error = some "NO_CONTACTS_FOUND" ∧ r.people = []) := by
  have hcond : ¬ (¬ jsTruthy domain ∧ ¬ jsTruthy company) := by
    rcases hdc with h | h <;> simp [h]
  unfold peopleLookup
  rw [if_neg hcond, if_neg (by simp [hok])]
  by_cases hlen : ((((resp.data.bind fun d => d.emails).getD []).take
      tool.limit.toNat).map toPerson).length = 0
  · rw [if_pos hlen]
    exact ⟨_, rfl, Or.inr ⟨rfl, rfl, rfl, rfl⟩, fun _ => ⟨rfl, rfl, rfl⟩⟩
  · rw [if_neg hlen]
    have hne : (((resp.data.bind fun d => d.emails).getD []).take
        tool.limit.toNat).map toPerson ≠ [] := by
      intro hnil
      exact hlen (by rw [hnil]; rfl)
    refine ⟨_, rfl, Or.inl ⟨rfl, rfl, rfl, hne, rfl⟩, fun hz => ?_⟩
    exact absurd (by simp [hz]) hlen

/-- Witness for C7 at a concrete lookup whose backend returns zero
contacts. -/
theorem C7_lookup_result_shapes_witness :
    ∃ r, peopleLookup (createHunterDomainSearchTool (some 10)) (some "y.com") none
        hunterZeroResp = Except.ok r ∧
      ((r.success = true ∧ r.error = none ∧ r.message = none ∧ r.people ≠ [] ∧
        r.total = r.people.length) ∨
       (r.success = false ∧ r.error = some "NO_CONTACTS_FOUND" ∧ r.people = [] ∧
        r.total = 0)) ∧
      ((hunterZeroResp.data.bind (fun d => d.emails)).getD [] = [] →
        r.success = false ∧ r.error = some "NO_CONTACTS_FOUND" ∧ r.people = []) :=
  C7_lookup_result_shapes (createHunterDomainSearchTool (some 10)) (some "y.com") none
    hunterZeroResp (Or.inl rfl) rfl

/-- Claim C1: when the contact lookup for a company reports zero contacts,
people_lookup returns the explicit failure shape, and the company-flow
worker then marks the company FAILED with failureReason "No contacts found",
saves no contact (fabricating none) and produces zero draft entries. -/
theorem C1_zero_contacts_company_failed (tool : HunterTool) (domain company : Option String)
    (resp : HunterResponse) (draftFor : Person → DraftRec) (ts : String) (co : CompanyRec)
    (hd : jsTruthy domain = true)
    (hok : resp.ok = true)
    (hz : (resp.data.bind (fun d => d.emails)).getD [] = []) :
    ∃ r, peopleLookup tool domain company resp = Except.ok r ∧ r.success = false ∧
      (companyFlow r draftFor ts co).company.status = "FAILED" ∧
      (companyFlow r draftFor ts co).company.failureReason = some "No contacts found" ∧
      (companyFlow r draftFor ts co).contactsSaved = [] ∧
      (companyFlow r draftFor ts co).drafts = [] := by
  unfold peopleLookup
  rw [if_neg (by simp [hd]), if_neg (by simp [hok]), hz]
  simp only [List.take_nil, List.map_nil, List.length_nil, if_pos rfl]
  exact ⟨_, rfl, rfl, by simp [companyFlow], by simp [companyFlow],
    by simp [companyFlow], by simp [companyFlow]⟩

/-- Witness for C1 at a concrete zero-contact lookup and company. -/
theorem C1_zero_contacts_company_failed_witness :
    ∃ r, peopleLookup (createHunterDomainSearchTool (some 10)) (some "y.com") none
        hunterZeroResp = Except.ok r ∧ r.success = false ∧
      (companyFlow r (fun _ => draftStub) "2026-01-01" pendingCompanyY).company.status
        = "FAILED" ∧
      (companyFlow r (fun _ => draftStub) "2026-01-01" pendingCompanyY).company.failureReason
        = some "No contacts found" ∧
      (companyFlow r (fun _ => draftStub) "2026-01-01" pendingCompanyY).contactsSaved = [] ∧
      (companyFlow r (fun _ => draftStub) "2026-01-01" pendingCompanyY).drafts = [] :=
  C1_zero_contacts_company_failed (createHunterDomainSearchTool (some 10)) (some "y.com")
    none hunterZeroResp (fun _ => draftStub) "2026-01-01" pendingCompanyY rfl rfl rfl

/-- Claim C8: the effective contact-lookup limit equals min(max(n, 1), 100)
for a configured value n — both in the request parameters sent to the
backend and as the truncation bound applied to the returned people list —
and defaults to 10 when no value is configured. -/
theorem C8_contact_limit_clamped (n : Int) (domain company : Option String)
    (resp : HunterResponse) (r : LookupResult)
    (hok : resp.ok = true)
    (hr : peopleLookup (createHunterDomainSearchTool (some n)) domain company resp
      = Except.ok r) :
    (createHunterDomainSearchTool (some n)).limit = min (max n 1) 100 ∧
    (hunterRequestParams (createHunterDomainSearchTool (some n)) domain company).limit
      = min (max n 1) 100 ∧
    r.people = (((resp.data.bind (fun d => d.emails)).getD []).take
      (min (max n 1) 100).toNat).map toPerson ∧
    (createHunterDomainSearchTool none).limit = 10 ∧
    (buildTools { contactsPerCompany := none }).limit = 10 := by
  refine ⟨rfl, rfl, ?_, rfl, rfl⟩
  unfold peopleLookup at hr
  by_cases hcond : ¬ jsTruthy domain ∧ ¬ jsTruthy company
  · rw [if_pos hcond] at hr
    exact absurd hr (by simp)
  · rw [if_neg hcond, if_neg (by simp [hok])] at hr
    by_cases hlen : ((((resp.data.bind fun d => d.emails).getD []).take
        (createHunterDomainSearchTool (some n)).limit.toNat).map toPerson).length = 0
    · rw [if_pos hlen] at hr
      have hre := (Except.ok.injEq _ _).mp hr
      have hnil := List.length_eq_zero.mp hlen
      rw [← hre]
      exact hnil.symm
    · rw [if_neg hlen] at hr
      have hre := (Except.ok.injEq _ _).mp hr
      rw [← hre]
      rfl

/-- Witness for C8 at a concrete configured limit of 3 against a backend
response carrying four contact entries. -/
theorem C8_contact_limit_clamped_witness :
    (createHunterDomainSearchTool (some 3)).limit = min (max 3 1) 100 ∧
    (hunterRequestParams (createHunterDomainSearchTool (some 3)) (some "y.com") none).limit
      = min (max 3 1) 100 ∧
    ({ success := true, error := none, message := none, company := some "Y",
       domain := some "y.com",
       people := (hunterFourEmails.take 3).map toPerson,
       total := 3 } : LookupResult).people
      = (((hunterFourResp.data.bind (fun d => d.emails)).getD []).take
        (min (max (3 : Int) 1) 100).toNat).map toPerson ∧
    (createHunterDomainSearchTool none).limit = 10 ∧
    (buildTools { contactsPerCompany := none }).limit = 10 :=
  C8_contact_limit_clamped 3 (some "y.com") none hunterFourResp
    { success := true, error := none, message := none, company := some "Y",
      domain := some "y.com",
      people := (hunterFourEmails.take 3).map toPerson,
      total := 3 } rfl rfl

/-- Claim C9: with credentials configured, sendEmails processes the messages
one at a time in input order, continues past individual failures, and
returns exactly one result per input message in the same order, each result
being the success shape (messageId, email) or the failure shape (email,
error); a failure at one position never prevents a later attempt, since
every position i receives exactly the result of its own message. -/
theorem C9_send_emails_per_message (user pass : Option String) (cfg : GmailConfig)
    (transport : EmailMessage → Except String String) (messages : List EmailMessage)
    (hcfg : getGmailConfig user pass = Except.ok cfg) :
    ∃ results, sendEmails user pass transport messages = Except.ok results ∧
      results = messages.map (sendOne transport) ∧
      results.length = messages.length ∧
      (∀ i : Nat, results[i]? = (messages[i]?).map (sendOne transport)) ∧
      (∀ r ∈ results,
        (r.success = true ∧ r.messageId ≠ none ∧ r.error = none) ∨
        (r.success = false ∧ r.messageId = none ∧ r.error ≠ none)) := by
  refine ⟨messages.map (sendOne transport),
    sendEmails_ok_of_config user pass cfg transport messages hcfg, rfl, by simp, ?_, ?_⟩
  · intro i
    simp [List.getElem?_map]
  · intro r hr
    rw [List.mem_map] at hr
    obtain ⟨m, _, rfl⟩ := hr
    unfold sendOne
    cases transport m <;> simp

/-- Witness for C9 at two concrete messages, the second of which fails. -/
theorem C9_send_emails_per_message_witness :
    ∃ results, sendEmails (some "u") (some "p")
        (fun m => if m.toAddress = "a@x.com" then Except.ok "m1" else Except.error "boom")
        [msgA, msgB] = Except.ok results ∧
      results = [msgA, msgB].map (sendOne
        (fun m => if m.toAddress = "a@x.com" then Except.ok "m1" else Except.error "boom")) ∧
      results.length = ([msgA, msgB] : List EmailMessage).length ∧
      (∀ i : Nat, results[i]? = (([msgA, msgB] : List EmailMessage)[i]?).map (sendOne
        (fun m => if m.toAddress = "a@x.com" then Except.ok "m1" else Except.error "boom"))) ∧
      (∀ r ∈ results,
        (r.success = true ∧ r.messageId ≠ none ∧ r.error = none) ∨
        (r.success = false ∧ r.messageId = none ∧ r.error ≠ none)) :=
  C9_send_emails_per_message (some "u") (some "p") { user := "u", pass := "p" }
    (fun m => if m.toAddress = "a@x.com" then Except.ok "m1" else Except.error "boom")
    [msgA, msgB] rfl

/-- Counterexample to claim C3 as stated: a draft whose send attempt fails
transitions to status failed, and re-invoking send on the resulting drafts
file performs zero sends — the failed send is not retried by re-invocation,
so failed sends are not retryable this way. -/
theorem C3_counterexample :
    sendPendingQueue (some "u") (some "p") (fun _ => Except.error "SMTP 550") "T1" "run0001"
        [draftPendingA]
      = PhaseOutcome.completed [draftFailedA]
          [{ success := false, messageId := none, email := "n@y.com",
             error := some "SMTP 550" }] ∧
    draftFailedA.status = "failed" ∧
    sendPendingQueue (some "u") (some "p") (fun _ => Except.error "SMTP 550") "T2" "run0001"
        [draftFailedA]
      = PhaseOutcome.skipped [draftFailedA] := by
  refine ⟨?_, rfl, ?_⟩ <;> rfl

/-- Claim C3 (amended): send selects exactly the entries with status draft
(of which only those with recipient, subject and body are sent): on a file
with no draft-status entries it performs zero sends and leaves drafts.json
unchanged (idempotence), and re-invocation resends only entries still in
draft status — entries already sent, and entries whose attempt failed (now
status failed), are excluded from the selection. -/
theorem C3_send_selection (user pass : Option String) (cfg : GmailConfig)
    (transport : EmailMessage → Except String String) (ts tag : String)
    (drafts : List DraftRec)
    (hcfg : getGmailConfig user pass = Except.ok cfg) :
    (drafts.filter (fun d => d.status = "draft") = [] →
      sendPendingQueue user pass transport ts tag drafts = PhaseOutcome.skipped drafts) ∧
    (sendPendingQueue user pass transport ts tag drafts).results
      = ((drafts.filter (fun d => d.status = "draft")).filter validDraft).map
          (fun d => sendOne transport (toMessage tag d)) ∧
    (∀ d : DraftRec, d.status = "failed" →
      d ∉ drafts.filter (fun x => x.status = "draft")) := by
  refine ⟨?_, ?_, ?_⟩
  · intro h
    simp [sendPendingQueue, h]
  · simp only [sendPendingQueue]
    by_cases h0 : (drafts.filter (fun d => d.status = "draft")).length = 0
    · rw [if_pos h0]
      have hnil := List.length_eq_zero.mp h0
      simp [PhaseOutcome.results, hnil]
    · rw [if_neg h0]
      by_cases h1 : (((drafts.filter (fun d => d.status = "draft")).filter validDraft).map
          (toMessage tag)).length = 0
      · rw [if_pos h1]
        have hnil := List.length_eq_zero.mp h1
        have : (drafts.filter (fun d => d.status = "draft")).filter validDraft = [] := by
          simpa using hnil
        simp [PhaseOutcome.results, this]
      · rw [if_neg h1,
          sendEmails_ok_of_config user pass cfg transport _ hcfg]
        split
        · simp_all
        · split <;> simp_all [PhaseOutcome.results, List.map_map, Function.comp_def]
  · intro d hd
    simp [List.mem_filter, hd]

/-- Witness for C3 at a drafts file holding one already-sent entry. -/
theorem C3_send_selection_witness :
    sendPendingQueue (some "u") (some "p") (fun _ => Except.error "SMTP 550") "T1" "run0001"
        [dupSentX] = PhaseOutcome.skipped [dupSentX] ∧
    (sendPendingQueue (some "u") (some "p") (fun _ => Except.error "SMTP 550") "T1" "run0001"
        [dupSentX]).results
      = (([dupSentX].filter (fun d => d.status = "draft")).filter validDraft).map
          (fun d => sendOne (fun _ => Except.error "SMTP 550") (toMessage "run0001" d)) ∧
    draftFailedA ∉ [dupSentX].filter (fun x => x.status = "draft") :=
  have h := C3_send_selection (some "u") (some "p") { user := "u", pass := "p" }
    (fun _ => Except.error "SMTP 550") "T1" "run0001" [dupSentX] rfl
  ⟨h.1 (by decide), h.2.1, h.2.2 draftFailedA (by decide)⟩

/-- Counterexample to claim C4 as stated: with two entries sharing one id —
one already sent, one still draft — the send phase rewrites the already-sent
entry (its messageId changes from m0 to the new send's m1), so an entry
whose status was not draft beforehand is not left unchanged. -/
theorem C4_counterexample :
    dupSentX.status = "sent" ∧
    (sendPendingQueue (some "u") (some "p") (fun _ => Except.ok "m1") "TS" "run0001"
        [dupSentX, dupDraftX]).fileContents.map (fun d => d.messageId)
      = [some "m1", some "m1"] ∧
    dupSentX.messageId = some "m0" := by
  refine ⟨rfl, ?_, rfl⟩
  rfl

/-- Claim C4 (amended): provided the drafts file has pairwise-distinct ids
and every draft-status entry carries recipient, subject and body, the send
phase completes and rewrites drafts.json so that every entry whose status
was not draft is unchanged, and every draft-status entry transitions exactly
once according to the result of its own send attempt — to sent with sentAt
and messageId on success, to failed with the error on failure. -/
theorem C4_send_phase_frame (user pass : Option String) (cfg : GmailConfig)
    (transport : EmailMessage → Except String String) (ts tag : String)
    (drafts : List DraftRec)
    (hcfg : getGmailConfig user pass = Except.ok cfg)
    (hids : (drafts.map (fun d => d.id)).Nodup)
    (hvalid : ∀ d ∈ drafts, d.status = "draft" → validDraft d = true) :
    (sendPendingQueue user pass transport ts tag drafts).fileContents
      = drafts.map (fun d =>
          if d.status = "draft" then applyResult ts d (sendOne transport (toMessage tag d))
          else d) ∧
    (drafts.filter (fun d => d.status = "draft") ≠ [] →
      sendPendingQueue user pass transport ts tag drafts
        = PhaseOutcome.completed
            (drafts.map (fun d =>
              if d.status = "draft" then
                applyResult ts d (sendOne transport (toMessage tag d))
              else d))
            ((drafts.filter (fun d => d.status = "draft")).map
              (fun d => sendOne transport (toMessage tag d)))) := by
  have hfilter_valid : (drafts.filter (fun d => d.status = "draft")).filter validDraft
      = drafts.filter (fun d => d.status = "draft") := by
    apply List.filter_eq_self.mpr
    intro a ha
    have hmem := List.mem_filter.mp ha
    exact hvalid a hmem.1 (by simpa using hmem.2)
  have hnodup_pending :
      ((drafts.filter (fun d => d.status = "draft")).map (fun p => p.id)).Nodup := by
    have hsub : (drafts.filter (fun d => d.status = "draft")).Sublist drafts :=
      List.filter_sublist _
    exact (hsub.map (fun p => p.id)).nodup hids
  have hupdate : ∀ d ∈ drafts,
      updateOne (drafts.filter (fun x => x.status = "draft"))
        ((drafts.filter (fun x => x.status = "draft")).map
          (fun p => sendOne transport (toMessage tag p))) ts d
      = some (if d.status = "draft" then
          applyResult ts d (sendOne transport (toMessage tag d)) else d) := by
    intro d hd
    by_cases hstat : d.status = "draft"
    · rw [if_pos hstat]
      exact updateOne_pending _ (fun p => sendOne transport (toMessage tag p)) ts d
        hnodup_pending (List.mem_filter.mpr ⟨hd, by simp [hstat]⟩)
    · rw [if_neg hstat]
      apply updateOne_not_pending
      intro p hp hpid
      have hpm := List.mem_filter.mp hp
      have hpd : p = d := List.inj_on_of_nodup_map hids hpm.1 hd hpid
      rw [hpd] at hpm
      exact hstat (by simpa using hpm.2)
  have hmo : mapOption (updateOne (drafts.filter (fun x => x.status = "draft"))
      ((drafts.filter (fun x => x.status = "draft")).map
        (fun p => sendOne transport (toMessage tag p))) ts) drafts
      = some (drafts.map (fun d =>
          if d.status = "draft" then applyResult ts d (sendOne transport (toMessage tag d))
          else d)) :=
    mapOption_eq_map _ _ drafts hupdate
  by_cases h0 : drafts.filter (fun d => d.status = "draft") = []
  · have hmapid : drafts.map (fun d =>
        if d.status = "draft" then applyResult ts d (sendOne transport (toMessage tag d))
        else d) = drafts := by
      have hall : ∀ d ∈ drafts, (if d.status = "draft" then
          applyResult ts d (sendOne transport (toMessage tag d)) else d) = d := by
        intro d hd
        have : ¬ d.status = "draft" := by
          have := List.filter_eq_nil_iff.mp h0 d hd
          simpa using this
        rw [if_neg this]
      calc drafts.map _ = drafts.map id := List.map_congr_left hall
        _ = drafts := List.map_id drafts
    refine ⟨?_, fun hne => absurd h0 hne⟩
    have hskip : sendPendingQueue user pass transport ts tag drafts
        = PhaseOutcome.skipped drafts := by
      simp [sendPendingQueue, h0]
    rw [hskip, hmapid]
    rfl
  · have hlen0 : ¬ (drafts.filter (fun d => d.status = "draft")).length = 0 := by
      simpa [List.length_eq_zero] using h0
    have hmlen : ¬ ((((drafts.filter (fun d => d.status = "draft")).filter
        validDraft).map (toMessage tag)).length = 0) := by
      rw [hfilter_valid]
      simpa [List.length_eq_zero] using h0
    have houtcome : sendPendingQueue user pass transport ts tag drafts
        = PhaseOutcome.completed
            (drafts.map (fun d =>
              if d.status = "draft" then
                applyResult ts d (sendOne transport (toMessage tag d))
              else d))
            ((drafts.filter (fun d => d.status = "draft")).map
              (fun d => sendOne transport (toMessage tag d))) := by
      simp only [sendPendingQueue]
      rw [if_neg hlen0, if_neg hmlen,
        sendEmails_ok_of_config user pass cfg transport _ hcfg]
      simp only [hfilter_valid, List.map_map]
      have hcomp : (sendOne transport ∘ toMessage tag)
          = fun d => sendOne transport (toMessage tag d) := rfl
      rw [hcomp, hmo]
    exact ⟨by rw [houtcome]; rfl, fun _ => houtcome⟩

/-- Witness for C4 at a two-entry drafts file with distinct ids: the sent
entry keeps its record, the pending entry transitions to sent. -/
theorem C4_send_phase_frame_witness :
    (sendPendingQueue (some "u") (some "p") (fun _ => Except.ok "m1") "TS" "run0001"
        [dupSentX, draftPendingA]).fileContents
      = [dupSentX, draftPendingA].map (fun d =>
          if d.status = "draft" then
            applyResult "TS" d (sendOne (fun _ => Except.ok "m1") (toMessage "run0001" d))
          else d) ∧
    ([dupSentX, draftPendingA].filter (fun d => d.status = "draft") ≠ [] →
      sendPendingQueue (some "u") (some "p") (fun _ => Except.ok "m1") "TS" "run0001"
        [dupSentX, draftPendingA]
        = PhaseOutcome.completed
            ([dupSentX, draftPendingA].map (fun d =>
              if d.status = "draft" then
                applyResult "TS" d (sendOne (fun _ => Except.ok "m1") (toMessage "run0001" d))
              else d))
            (([dupSentX, draftPendingA].filter (fun d => d.status = "draft")).map
              (fun d => sendOne (fun _ => Except.ok "m1") (toMessage "run0001" d)))) :=
  C4_send_phase_frame (some "u") (some "p") { user := "u", pass := "p" }
    (fun _ => Except.ok "m1") "TS" "run0001" [dupSentX, draftPendingA]
    rfl (by decide) (by decide)

/-- Counterexample to claim C10 as stated: when companies.json is present
but unreadable, the shared try/catch aborts before drafts.json is consulted,
so draftsGenerated is 0 even though drafts.json is readable and holds one
entry. -/
theorem C10_counterexample :
    (gatherPipelineStats (ReadResult.unreadable) (ReadResult.arr [draftStub])).draftsGenerated
      = 0 ∧
    (ReadResult.arr [draftStub]).entries.length = 1 ∧
    gatherPipelineStats (ReadResult.unreadable) (ReadResult.arr [draftStub]) = zeroStats := by
  exact ⟨rfl, rfl, rfl⟩

/-- Claim C10 (amended): the final statistics are computed solely from the
final on-disk artifacts — provided companies.json did not itself throw while
being read, companiesSelected is the number of companies.json entries,
companiesResearched the number of SUCCESS entries among them, and
draftsGenerated, contactsFound and contactsVerified each the number of
drafts.json entries (zero when that file is absent, unreadable or not an
array); if reading companies.json throws, every statistic is zero. -/
theorem C10_stats_from_artifacts (companies : ReadResult CompanyRec)
    (drafts : ReadResult DraftRec)
    (hc : companies ≠ ReadResult.unreadable) :
    (gatherPipelineStats companies drafts).companiesSelected
      = companies.entries.length ∧
    (gatherPipelineStats companies drafts).companiesResearched
      = (companies.entries.filter (fun c => c.status = "SUCCESS")).length ∧
    (gatherPipelineStats companies drafts).draftsGenerated = drafts.entries.length ∧
    (gatherPipelineStats companies drafts).contactsFound = drafts.entries.length ∧
    (gatherPipelineStats companies drafts).contactsVerified = drafts.entries.length := by
  cases companies <;> cases drafts <;>
    simp_all [gatherPipelineStats, ReadResult.entries, zeroStats]

/-- Witness for C10 at a readable one-company file and an absent drafts
file. -/
theorem C10_stats_from_artifacts_witness :
    (gatherPipelineStats (ReadResult.arr [pendingCompanyY])
        (ReadResult.absent : ReadResult DraftRec)).companiesSelected
      = (ReadResult.arr [pendingCompanyY]).entries.length ∧
    (gatherPipelineStats (ReadResult.arr [pendingCompanyY])
        (ReadResult.absent : ReadResult DraftRec)).companiesResearched
      = ((ReadResult.arr [pendingCompanyY]).entries.filter
          (fun c => c.status = "SUCCESS")).length ∧
    (gatherPipelineStats (ReadResult.arr [pendingCompanyY])
        (ReadResult.absent : ReadResult DraftRec)).draftsGenerated
      = (ReadResult.absent : ReadResult DraftRec).entries.length ∧
    (gatherPipelineStats (ReadResult.arr [pendingCompanyY])
        (ReadResult.absent : ReadResult DraftRec)).contactsFound
      = (ReadResult.absent : ReadResult DraftRec).entries.length ∧
    (gatherPipelineStats (ReadResult.arr [pendingCompanyY])
        (ReadResult.absent : ReadResult DraftRec)).contactsVerified
      = (ReadResult.absent : ReadResult DraftRec).entries.length :=
  C10_stats_from_artifacts (ReadResult.arr [pendingCompanyY]) ReadResult.absent (by decide)

end DeepReach
